import Mathlib

/-!
Shallow embedding of the subscription-manager repository (src/main.py and
src/mcp_server.py) and proofs about its data model and operations.

The SQLite database is modelled as lists of rows; machine floats used for
money and confidence scores are modelled as rationals; network calls are
modelled by passing the response (or the page oracle) as an argument.
-/

namespace SubscriptionManager

/-- Row of the `users` table (src/main.py, init_database). -/
structure UserRow where
  id : String
  email : String
  name : Option String
deriving DecidableEq, Repr

/-- Row of the `connections` table (src/main.py, init_database).
`token_expiry` is modelled as an integer timestamp (seconds). -/
structure ConnectionRow where
  id : String
  user_id : String
  email : String
  access_token : String
  refresh_token : String
  token_expiry : Int
  last_sync_at : Option Int
  fetch_page_token : Option String
  is_active : Bool
deriving DecidableEq, Repr

/-- Row of the `subscriptions` table in src/main.py's schema.
`vendor_name` is NOT NULL; `currency` is nullable (its DEFAULT applies only
when the column is omitted, and the insert always supplies it). -/
structure MainSubscriptionRow where
  connection_id : String
  vendor_name : String
  vendor_email : Option String
  amount : Option ℚ
  currency : Option String
  billing_cycle : Option String
  confidence_score : ℚ
  category : Option String
deriving DecidableEq, Repr

/-- Row of the `processed_emails` table (src/main.py, init_database).
`received_at` is stored by sync_emails as an ISO timestamp string. -/
structure ProcessedEmailRow where
  connection_id : String
  gmail_message_id : String
  subject : String
  sender : String
  received_at : String
  is_subscription : Bool
  confidence_score : ℚ
  vendor : Option String
deriving DecidableEq, Repr

/-- The whole SQLite database of src/main.py. -/
structure MainDB where
  users : List UserRow
  connections : List ConnectionRow
  subscriptions : List MainSubscriptionRow
  processed_emails : List ProcessedEmailRow
deriving DecidableEq, Repr

/-- src/main.py, `SubscriptionManager.reset_database` (lines 795-808): three
DELETE statements, on processed_emails, subscriptions and connections; the
users table is not touched. -/
def reset_database (db : MainDB) : MainDB :=
  { db with processed_emails := [], subscriptions := [], connections := [] }

/-- The 5-minute refresh safety margin, in seconds (`timedelta(minutes=5)`). -/
def refreshMarginSeconds : Int := 5 * 60

/-- src/main.py, `SubscriptionManager.get_valid_access_token` (lines 178-211).
`now` is the current clock reading; `tokenData` is the JSON body returned by
the refresh endpoint, reduced to the two fields the code reads
(`access_token`, `expires_in`).  Returns the token to use together with the
database after any persisted refresh; raising `Exception("Connection not
found")` is modelled as `Except.error`. -/
def get_valid_access_token (now : Int) (tokenData : String × Int) (connection_id : String)
    (db : MainDB) : Except String (String × MainDB) :=
  match db.connections.find? (fun c => c.id == connection_id) with
  | none => .error "Connection not found"
  | some c =>
    if c.token_expiry ≤ now + refreshMarginSeconds then
      let newToken := tokenData.1
      let newExpiry := now + tokenData.2
      .ok (newToken,
        { db with connections := db.connections.map (fun r =>
            if r.id == connection_id then
              { r with access_token := newToken, token_expiry := newExpiry }
            else r) })
    else
      .ok (c.access_token, db)

/-- One fetched email, as built by `fetch_single_message` in
src/main.py, `threaded_fetch_messages` (lines 300-307). -/
structure EmailInfo where
  id : String
  thread_id : String
  subject : String
  sender : String
  date : String
  body : String
deriving DecidableEq, Repr

/-- A field of a parsed JSON dict, distinguishing an absent key from a key
present with JSON null: Python dict.get substitutes its default only when
the key is absent, so a present null flows through as Python None. -/
inductive JsonField (α : Type) where
  | absent : JsonField α
  | null : JsonField α
  | value (a : α) : JsonField α
deriving DecidableEq, Repr

/-- `dict.get(key, default)`: the result `none` is Python None, produced by
a key present with JSON null; an absent key yields the default. -/
def JsonField.getD {α : Type} : JsonField α → α → Option α
  | .absent, d => some d
  | .null, _ => none
  | .value a, _ => some a

/-- `dict.get(key)` with no default: absent and null both give Python None. -/
def JsonField.toOption {α : Type} : JsonField α → Option α
  | .absent => none
  | .null => none
  | .value a => some a

/-- A classification dict as consumed by `sync_emails`: the fields the code
reads with `classification[...]` are total; `vendor_name` and `currency`
are read with `.get(key, default)`, where a present JSON null and an absent
key behave differently, so they keep the three-way distinction; the fields
read with bare `.get(key)` collapse null and absent to `none`.  Confidence
and amount are modelled as rationals. -/
structure Classification where
  is_subscription : Bool
  confidence : ℚ
  vendor_name : JsonField String
  vendor_email : Option String
  amount : Option ℚ
  currency : JsonField String
  billing_cycle : Option String
  category : Option String
deriving DecidableEq, Repr

/-- Counters kept by `sync_emails` (src/main.py lines 640-643). -/
structure SyncCounters where
  processed : Nat
  skipped : Nat
  errors : Nat
  new_subscriptions : Nat
deriving DecidableEq, Repr

/-- The processed_emails row inserted by `sync_emails` (src/main.py lines
672-681).  Note the code stores `datetime.now().isoformat()` — the
ingestion clock `now` — in `received_at`, not the message's Date header. -/
def mkProcessedRow (connection_id now : String) (e : EmailInfo) (c : Classification) :
    ProcessedEmailRow :=
  { connection_id := connection_id
    gmail_message_id := e.id
    subject := e.subject
    sender := e.sender
    received_at := now
    is_subscription := c.is_subscription
    confidence_score := c.confidence
    vendor := c.vendor_name.toOption }

/-- The subscriptions row inserted by `sync_emails` (src/main.py lines
685-699), given the resolved vendor name `v`: the insert only succeeds when
`classification.get("vendor_name", "Unknown")` produced an actual string,
since the column is NOT NULL. -/
def mkSubscriptionRow (connection_id v : String) (c : Classification) : MainSubscriptionRow :=
  { connection_id := connection_id
    vendor_name := v
    vendor_email := c.vendor_email
    amount := c.amount
    currency := c.currency.getD "USD"
    billing_cycle := c.billing_cycle
    confidence_score := c.confidence
    category := c.category }

/-- The message IDs stored in processed_emails. -/
def storedMessageIds (db : MainDB) : List String :=
  db.processed_emails.map (fun r => r.gmail_message_id)

/-- Body of the per-email loop of src/main.py, `sync_emails` (lines 645-709):
the dedup pre-check `SELECT id FROM processed_emails WHERE gmail_message_id
= ?` counts a hit as skipped; otherwise the email is classified (`classify`
stands for `classify_email_with_llm` on the email's content), a
processed_emails row is inserted, and when `is_subscription` holds and
`confidence >= confidence_threshold` a subscriptions row is inserted.  That
second insert supplies `classification.get("vendor_name", "Unknown")` to the
NOT NULL vendor_name column: a present-but-null vendor_name passes Python
None, the insert raises IntegrityError, and the `except` at lines 707-709
swallows it, incrementing error_count — the processed_emails insert already
executed on the same cursor and survives to the commit. -/
def processOneEmail (threshold : ℚ) (connection_id now : String)
    (classify : EmailInfo → Classification) (e : EmailInfo)
    (st : MainDB × SyncCounters) : MainDB × SyncCounters :=
  let db := st.1
  let k := st.2
  if db.processed_emails.any (fun r => r.gmail_message_id == e.id) then
    (db, { k with skipped := k.skipped + 1 })
  else
    let c := classify e
    let db1 := { db with
      processed_emails := db.processed_emails ++ [mkProcessedRow connection_id now e c] }
    if c.is_subscription ∧ threshold ≤ c.confidence then
      match c.vendor_name.getD "Unknown" with
      | none =>
        (db1, { k with processed := k.processed + 1, errors := k.errors + 1 })
      | some v =>
        ({ db1 with
            subscriptions := db1.subscriptions ++ [mkSubscriptionRow connection_id v c] },
         { k with processed := k.processed + 1,
                  new_subscriptions := k.new_subscriptions + 1 })
    else
      (db1, { k with processed := k.processed + 1 })

/-- Phase 2 of src/main.py, `sync_emails` (lines 637-729): process the
fetched emails in order against the database. -/
def sync_emails (threshold : ℚ) (connection_id now : String)
    (classify : EmailInfo → Classification) (emails : List EmailInfo)
    (db : MainDB) : MainDB × SyncCounters :=
  emails.foldl (fun st e => processOneEmail threshold connection_id now classify e st)
    (db, ⟨0, 0, 0, 0⟩)

/-- Default value of `LLM_CONFIDENCE_THRESHOLD` (src/main.py line 39),
the rational 0.7. -/
def default_confidence_threshold : ℚ := mkRat 7 10

/-- The JSON object the classifier may return: every field optional, since
the code performs no field validation on a successfully parsed reply. -/
structure ClassificationJson where
  is_subscription : Option Bool
  confidence : Option ℚ
  vendor_name : Option String
  vendor_email : Option String
  amount : Option ℚ
  currency : Option String
  billing_cycle : Option String
  category : Option String
deriving DecidableEq, Repr

/-- A parsed JSON object with no keys at all. -/
def emptyClassificationJson : ClassificationJson :=
  ⟨none, none, none, none, none, none, none, none⟩

/-- The fallback `{"is_subscription": False, "confidence": 0.0}` returned by
`classify_email_with_llm` on every handled failure. -/
def conservativeDefault : ClassificationJson :=
  { emptyClassificationJson with is_subscription := some false, confidence := some 0 }

/-- The OpenAI response body as read by the code: the `choices` list, each
choice reduced to the parse of its `message.content` (`none` when
`json.loads` fails on the content). -/
structure OpenAIResult where
  choices : List (Option ClassificationJson)
deriving DecidableEq, Repr

/-- Parse outcome of the HTTP response body: `invalid` means the body is
not JSON, so `result = response.json()` (src/main.py line 592) raises
before `result` is bound and before the status check runs. -/
inductive BodyParse where
  | invalid : BodyParse
  | parsed (result : OpenAIResult) : BodyParse
deriving DecidableEq, Repr

/-- Outcome of the POST to the chat-completions endpoint.  `exn` covers a
raised transport exception from `requests.post` itself (timeout, connection
error); a reply carries its status and the parse of its body. -/
inductive LLMTransport where
  | exn : LLMTransport
  | response (status : Nat) (body : BodyParse) : LLMTransport
deriving DecidableEq, Repr

/-- The exception escaping `classify_email_with_llm` on a non-JSON response
body: `response.json()` raises a `json.JSONDecodeError` subclass, the
handler at src/main.py line 605 catches it, and its second print at line
607 evaluates the never-bound `result`, raising UnboundLocalError out of
the function. -/
def resultUnboundError : String := "UnboundLocalError: result"

/-- src/main.py, `SubscriptionManager.classify_email_with_llm` (lines
551-611).  `email_content` only shapes the prompt; the outcome `t` of the
network call determines the result.  A transport exception, a non-200
status with a JSON body, a missing or empty `choices` list, and message
content that fails `json.loads` (where `result` is bound, so the handler
completes) all return `conservativeDefault`; a successfully parsed content
object is returned as-is, with no validation of its fields; a response body
that is not JSON makes the JSONDecodeError handler itself raise
UnboundLocalError, modelled as `.error`. -/
def classify_email_with_llm (email_content : String) (t : LLMTransport) :
    Except String ClassificationJson :=
  match t with
  | .exn => .ok conservativeDefault
  | .response status body =>
    match body with
    | .invalid => .error resultUnboundError
    | .parsed result =>
      if status ≠ 200 then .ok conservativeDefault
      else
        match result.choices with
        | [] => .ok conservativeDefault
        | contentParse :: _ =>
          match contentParse with
          | none => .ok conservativeDefault
          | some c => .ok c

/-- One page of the Gmail message-listing response: the message IDs and the
optional `nextPageToken`. -/
structure ListPage where
  messages : List String
  nextPageToken : Option String
deriving DecidableEq, Repr

/-- The listing endpoint, as a function from the optional `pageToken` sent
with the request to the page returned. -/
def ListApi : Type := Option String → ListPage

/-- The `fetch_direction` argument of `fetch_gmail_messages`. -/
inductive FetchDirection where
  | recent : FetchDirection
  | older : FetchDirection
deriving DecidableEq, Repr

/-- Persist a returned `nextPageToken` on the connection row — the `UPDATE
connections SET fetch_page_token = ?` at src/main.py lines 253-259, executed
only when the response carries a token. -/
def saveNextPageToken (t : Option String) (connection_id : String) (db : MainDB) : MainDB :=
  match t with
  | none => db
  | some tok =>
    { db with connections := db.connections.map (fun r =>
        if r.id == connection_id then { r with fetch_page_token := some tok } else r) }

/-- Clear the saved page token — the `UPDATE connections SET
fetch_page_token = NULL` at src/main.py line 240, run in `recent` mode. -/
def clearPageToken (connection_id : String) (db : MainDB) : MainDB :=
  { db with connections := db.connections.map (fun r =>
      if r.id == connection_id then { r with fetch_page_token := none } else r) }

/-- The listing portion of src/main.py, `fetch_gmail_messages` (lines
213-265): obtain a valid access token (which may refresh and may fail),
choose the page token from the direction, issue ONE GET against the listing
endpoint, persist any returned continuation token, and return that single
page's message IDs.  (The subsequent per-message detail fetch is
`threaded_fetch_messages`, modelled separately.) -/
def fetch_message_list (api : ListApi) (now : Int) (tokenData : String × Int)
    (connection_id : String) (direction : FetchDirection) (db : MainDB) :
    Except String (List String × MainDB) :=
  match get_valid_access_token now tokenData connection_id db with
  | .error e => .error e
  | .ok (_token, db0) =>
    match direction with
    | .older =>
      let saved := (db0.connections.find? (fun c => c.id == connection_id)).bind
        (fun c => c.fetch_page_token)
      let page := api saved
      .ok (page.messages, saveNextPageToken page.nextPageToken connection_id db0)
    | .recent =>
      let db1 := clearPageToken connection_id db0
      let page := api none
      .ok (page.messages, saveNextPageToken page.nextPageToken connection_id db1)

/-- The message IDs of every page of the listing, obtained by following the
continuation cursor until the API returns none; `fuel` bounds the number of
pages followed. -/
def chasePages (api : ListApi) : Nat → Option String → List String
  | 0, _ => []
  | fuel + 1, tok =>
    let page := api tok
    page.messages ++
      (match page.nextPageToken with
       | none => []
       | some t => chasePages api fuel (some t))

/-- The message IDs a listing call produced (empty on error). -/
def listingResultIds (r : Except String (List String × MainDB)) : List String :=
  match r with
  | .error _ => []
  | .ok (ms, _) => ms

/-- The payload of a per-message detail response, reduced to the fields the
worker extracts (headers and decoded body). -/
structure MsgPayload where
  thread_id : String
  subject : String
  sender : String
  date : String
  body : String
deriving DecidableEq, Repr

/-- Outcome of one GET against the message-detail endpoint. -/
inductive MsgResp where
  | timeout : MsgResp
  | exn : MsgResp
  | http (status : Nat) (payload : MsgPayload) : MsgResp
deriving DecidableEq, Repr

/-- The email_info dict built at src/main.py lines 300-307. -/
def mkEmailInfo (id : String) (p : MsgPayload) : EmailInfo :=
  { id := id
    thread_id := p.thread_id
    subject := p.subject
    sender := p.sender
    date := p.date
    body := p.body }

/-- Observable outcome of one worker: the fetched email (if any), the number
of HTTP requests issued for the item, and the number of `time.sleep(1)`
backoff pauses taken. -/
structure FetchOutcome where
  result : Option EmailInfo
  requests : Nat
  sleeps : Nat
deriving DecidableEq, Repr

/-- src/main.py, `fetch_single_message` inside `threaded_fetch_messages`
(lines 276-325).  `r1` is the first response; `r2` is the response to the
single retry, consulted only when `r1` is HTTP 429.  Every failure
(timeout, exception, non-200 status, failed retry) is caught and yields
`none`; nothing propagates. -/
def fetch_single_message (id : String) (r1 r2 : MsgResp) : FetchOutcome :=
  match r1 with
  | .timeout => ⟨none, 1, 0⟩
  | .exn => ⟨none, 1, 0⟩
  | .http status payload =>
    if status = 429 then
      match r2 with
      | .timeout => ⟨none, 2, 1⟩
      | .exn => ⟨none, 2, 1⟩
      | .http status2 payload2 =>
        if status2 = 200 then ⟨some (mkEmailInfo id payload2), 2, 1⟩
        else ⟨none, 2, 1⟩
    else if status = 200 then ⟨some (mkEmailInfo id payload), 1, 0⟩
    else ⟨none, 1, 0⟩

/-- src/main.py, `threaded_fetch_messages` (lines 267-349): each listed ID is
fetched by a worker; successes are appended to the shared list, failures are
dropped.  `oracle` gives each message's (first, retry) responses; the
accumulation is modelled in submission order (callers do not rely on
ordering). -/
def threaded_fetch_messages (msgs : List String) (oracle : String → MsgResp × MsgResp) :
    List EmailInfo :=
  msgs.filterMap (fun m => (fetch_single_message m (oracle m).1 (oracle m).2).result)

end SubscriptionManager

namespace McpServer

/-- Row of the `subscriptions` table in the newer schema used by
src/mcp_server.py and created by src/simple_migrate.py: `name` carries a
UNIQUE constraint; `domains` is a JSON array (modelled parsed). -/
structure Subscription where
  name : String
  domains : Option (List String)
  category : Option String
  cost : Option ℚ
  currency : Option String
  billing_cycle : Option String
  status : String
  auto_renewing : Bool
  notes : Option String
deriving DecidableEq, Repr

/-- The optional arguments of `update_subscription` (src/mcp_server.py lines
191-200); a `none` means the argument was not supplied and the column is
left alone. -/
structure UpdateArgs where
  new_name : Option String
  domains : Option (List String)
  cost : Option ℚ
  billing_cycle : Option String
  status : Option String
  currency : Option String
  category : Option String
  notes : Option String
deriving DecidableEq, Repr

/-- The distinguishable replies of `update_subscription`: the three error
JSONs and the success JSON. -/
inductive UpdateOutcome where
  | notFound : UpdateOutcome
  | nameExists : UpdateOutcome
  | noFields : UpdateOutcome
  | updated : UpdateOutcome
deriving DecidableEq, Repr

/-- Whether any SET clause would be built (src/mcp_server.py lines 229-280):
the "No fields to update" error fires exactly when every argument is
`none`. -/
def hasAnyField (a : UpdateArgs) : Bool :=
  a.new_name.isSome || a.domains.isSome || a.cost.isSome || a.billing_cycle.isSome ||
    a.status.isSome || a.currency.isSome || a.category.isSome || a.notes.isSome

/-- Apply the SET clauses of the UPDATE statement to one row (src/mcp_server.py
lines 232-288); a supplied `status` also rewrites `auto_renewing`. -/
def applyUpdates (a : UpdateArgs) (s : Subscription) : Subscription :=
  { s with
    name := a.new_name.getD s.name
    domains := match a.domains with | some d => some d | none => s.domains
    cost := match a.cost with | some c => some c | none => s.cost
    billing_cycle := match a.billing_cycle with | some b => some b | none => s.billing_cycle
    status := a.status.getD s.status
    auto_renewing := match a.status with
      | some st => st == "active"
      | none => s.auto_renewing
    currency := match a.currency with | some c => some c | none => s.currency
    category := match a.category with | some c => some c | none => s.category
    notes := match a.notes with | some n => some n | none => s.notes }

/-- src/mcp_server.py, `update_subscription` (lines 190-319): reject when no
row has the given name; reject a rename whose new name already belongs to a
different row (`SELECT name FROM subscriptions WHERE name = ? AND name !=
?`); reject when no argument was supplied; otherwise UPDATE the row keyed by
the old name.  Every rejection leaves the table unchanged. -/
def update_subscription (subs : List Subscription) (name : String) (a : UpdateArgs) :
    UpdateOutcome × List Subscription :=
  if subs.any (fun s => s.name == name) then
    if (match a.new_name with
        | some n => subs.any (fun s => s.name == n && s.name != name)
        | none => false) then
      (.nameExists, subs)
    else if hasAnyField a then
      (.updated, subs.map (fun s => if s.name == name then applyUpdates a s else s))
    else
      (.noFields, subs)
  else
    (.notFound, subs)

end McpServer

namespace DomainExtraction

/-- The characters strictly after the first occurrence of `c` (empty when
`c` is absent). -/
def dropToChar (c : Char) : List Char → List Char
  | [] => []
  | x :: xs => if x = c then xs else dropToChar c xs

/-- The characters strictly before the first occurrence of `c` (the whole
input when `c` is absent). -/
def takeToChar (c : Char) : List Char → List Char
  | [] => []
  | x :: xs => if x = c then [] else x :: takeToChar c xs

/-- Split a character list on a separator, keeping empty pieces; the result
always has at least one piece, and exactly one when the separator is
absent. -/
def splitOnChar (c : Char) : List Char → List (List Char)
  | [] => [[]]
  | x :: xs =>
    let r := splitOnChar c xs
    if x = c then [] :: r
    else
      match r with
      | [] => [[x]]
      | h :: t => (x :: h) :: t

/-- Strip leading and trailing whitespace. -/
def trimChars (l : List Char) : List Char :=
  ((l.dropWhile Char.isWhitespace).reverse.dropWhile Char.isWhitespace).reverse

/-- Modelled from the spec: no file under src/ contains the
domain-extraction routine; §4.5 specifies `extractDomain(rawSenderHeader) ->
domain string ("" if none)`: when the header contains an angle-bracket
address, the bracketed portion is the address, otherwise the whole header
is; the domain is everything after the last `@`, lower-cased and trimmed,
and the absence of `@` yields the empty string. -/
def extractDomain (raw : String) : String :=
  let chars := raw.toList
  let address :=
    if chars.contains '<' then takeToChar '>' (dropToChar '<' chars) else chars
  let parts := splitOnChar '@' address
  if parts.length ≤ 1 then ""
  else String.mk (trimChars ((parts.getLastD []).map Char.toLower))

end DomainExtraction

namespace Fixtures

open SubscriptionManager McpServer

/-- An empty database. -/
def emptyDB : MainDB := { users := [], connections := [], subscriptions := [], processed_emails := [] }

/-- Zeroed sync counters. -/
def counters0 : SyncCounters := ⟨0, 0, 0, 0⟩

/-- A connection whose token is far from expiry at clock 0. -/
def connFresh : ConnectionRow :=
  { id := "c1", user_id := "1", email := "user@example.com", access_token := "tokA"
    refresh_token := "tokR", token_expiry := 1000000, last_sync_at := none
    fetch_page_token := none, is_active := true }

/-- A connection whose token expiry is exactly at the 5-minute boundary for
clock 1000. -/
def connBoundary : ConnectionRow :=
  { connFresh with id := "c2", access_token := "tokB", token_expiry := 1300 }

/-- A database holding both connections. -/
def dbTwoConn : MainDB := { emptyDB with connections := [connFresh, connBoundary] }

/-- A database holding only the fresh connection. -/
def dbOneConn : MainDB := { emptyDB with connections := [connFresh] }

/-- A listing endpoint with two pages: the first returns `m1` and a
continuation cursor, the second returns `m2` and no cursor. -/
def twoPageApi : ListApi := fun t =>
  match t with
  | none => { messages := ["m1"], nextPageToken := some "cursor1" }
  | some _ => { messages := ["m2"], nextPageToken := none }

/-- A concrete fetched email whose Date header names 1 Jan 2024. -/
def email0 : EmailInfo :=
  { id := "m1", thread_id := "t1", subject := "Your receipt", sender := "billing@netflix.com"
    date := "Mon, 01 Jan 2024 00:00:00 +0000", body := "Thanks for subscribing" }

/-- A classification at confidence 0.75, above the default threshold, with
a concrete vendor name. -/
def highConfClassification : Classification :=
  { is_subscription := true, confidence := mkRat 3 4, vendor_name := .value "Netflix"
    vendor_email := some "billing@netflix.com", amount := some (mkRat 1299 100)
    currency := .value "USD", billing_cycle := some "monthly", category := some "streaming" }

/-- The same classification at confidence 0.65, below the default threshold. -/
def lowConfClassification : Classification :=
  { highConfClassification with confidence := mkRat 13 20 }

/-- A classification above the threshold whose vendor_name key is present
with JSON null — the shape the classifier prompt itself allows
("vendor_name": string or null). -/
def nullVendorClassification : Classification :=
  { highConfClassification with vendor_name := .null }

/-- A message-detail payload. -/
def payload0 : MsgPayload :=
  { thread_id := "t1", subject := "Your receipt", sender := "billing@netflix.com"
    date := "Mon, 01 Jan 2024 00:00:00 +0000", body := "Thanks for subscribing" }

/-- A detail endpoint that answers HTTP 429 to every request, including the
retry. -/
def oracle429 : String → MsgResp × MsgResp :=
  fun _ => (.http 429 payload0, .http 429 payload0)

/-- A stored subscription named Netflix. -/
def subNetflix : Subscription :=
  { name := "Netflix", domains := some ["netflix.com"], category := some "streaming"
    cost := some (mkRat 1299 100), currency := some "USD", billing_cycle := some "monthly"
    status := "active", auto_renewing := true, notes := none }

/-- A stored subscription named Spotify. -/
def subSpotify : Subscription :=
  { subNetflix with name := "Spotify", domains := some ["spotify.com"], category := some "music" }

/-- Update arguments renaming a subscription to Spotify, all other fields
untouched. -/
def renameToSpotify : UpdateArgs :=
  { new_name := some "Spotify", domains := none, cost := none, billing_cycle := none
    status := none, currency := none, category := none, notes := none }

end Fixtures


open SubscriptionManager McpServer DomainExtraction Fixtures

/-- A stored message ID appears in `storedMessageIds` exactly when the dedup
pre-check's `any` succeeds. -/
theorem mem_storedMessageIds_iff (db : MainDB) (x : String) :
    x ∈ storedMessageIds db ↔
      db.processed_emails.any (fun r => r.gmail_message_id == x) = true := by
  constructor
  · intro hx
    rcases List.mem_map.mp hx with ⟨r, hr, hrx⟩
    exact List.any_eq_true.mpr ⟨r, hr, beq_iff_eq.mpr hrx⟩
  · intro hx
    rcases List.any_eq_true.mp hx with ⟨r, hr, hrx⟩
    exact List.mem_map.mpr ⟨r, hr, beq_iff_eq.mp hrx⟩

/-- One step of the sync loop preserves uniqueness of stored message IDs. -/
theorem nodup_processOneEmail (threshold : ℚ) (cid now : String)
    (classify : EmailInfo → Classification) (e : EmailInfo)
    (st : MainDB × SyncCounters)
    (h : (storedMessageIds st.1).Nodup) :
    (storedMessageIds (processOneEmail threshold cid now classify e st).1).Nodup := by
  unfold processOneEmail
  by_cases hany : st.1.processed_emails.any (fun r => r.gmail_message_id == e.id) = true
  · simpa [hany] using h
  · have hnotmem : e.id ∉ storedMessageIds st.1 := by
      rw [mem_storedMessageIds_iff]
      exact hany
    by_cases hgate : (classify e).is_subscription = true ∧ threshold ≤ (classify e).confidence
    · simp only [hany, Bool.false_eq_true, if_false, hgate, if_true]
      rcases hv : (classify e).vendor_name.getD "Unknown" with _ | v <;>
        simpa [hv, storedMessageIds, mkProcessedRow, List.nodup_append] using
          And.intro h hnotmem
    · simp only [hany, Bool.false_eq_true, if_false, hgate, if_false]
      simpa [storedMessageIds, mkProcessedRow, List.nodup_append] using And.intro h hnotmem

/-- The whole sync loop preserves uniqueness of stored message IDs. -/
theorem nodup_sync_fold (threshold : ℚ) (cid now : String)
    (classify : EmailInfo → Classification) :
    ∀ (emails : List EmailInfo) (st : MainDB × SyncCounters),
      (storedMessageIds st.1).Nodup →
      (storedMessageIds
        (emails.foldl (fun s e => processOneEmail threshold cid now classify e s) st).1).Nodup := by
  intro emails
  induction emails with
  | nil => intro st h; exact h
  | cons e rest ih =>
    intro st h
    exact ih _ (nodup_processOneEmail threshold cid now classify e st h)

/-- C10: `reset_database` deletes every row of processed_emails,
subscriptions and connections, and leaves the users table unchanged. -/
theorem reset_database_clears_all_but_users (db : MainDB) :
    (reset_database db).processed_emails = [] ∧
    (reset_database db).subscriptions = [] ∧
    (reset_database db).connections = [] ∧
    (reset_database db).users = db.users :=
  ⟨rfl, rfl, rfl, rfl⟩

/-- C4: with no connection record `get_valid_access_token` fails; with a
stored expiry at or before now + 5 minutes it refreshes, persisting the new
access token and expiry now + returned lifetime before returning the new
token; with a stored expiry strictly after now + 5 minutes it returns the
stored token and leaves the record unchanged. -/
theorem token_refresh_boundary (now life : Int) (tok cidMissing cid : String)
    (dbMissing db : MainDB) (c : ConnectionRow)
    (hmiss : dbMissing.connections.find? (fun r => r.id == cidMissing) = none)
    (hfind : db.connections.find? (fun r => r.id == cid) = some c) :
    get_valid_access_token now (tok, life) cidMissing dbMissing = .error "Connection not found" ∧
    (c.token_expiry ≤ now + refreshMarginSeconds →
      get_valid_access_token now (tok, life) cid db =
        .ok (tok, { db with connections := db.connections.map (fun r =>
            if r.id == cid then { r with access_token := tok, token_expiry := now + life }
            else r) })) ∧
    (now + refreshMarginSeconds < c.token_expiry →
      get_valid_access_token now (tok, life) cid db = .ok (c.access_token, db)) := by
  refine ⟨?_, ?_, ?_⟩
  · simp [get_valid_access_token, hmiss]
  · intro hle
    simp [get_valid_access_token, hfind, hle]
  · intro hlt
    simp [get_valid_access_token, hfind, not_le.mpr hlt]

/-- C4 witness: at clock 1000, connection `c2` has expiry 1300 = now + 300,
exactly the inclusive boundary, so the refresh fires and persists expiry
1000 + 3600; connection `c1` has expiry 1000000, strictly beyond the
margin, so its stored token is returned with the database unchanged; and an
unknown id fails. -/
theorem token_refresh_boundary_witness :
    get_valid_access_token 1000 ("tokNew", 3600) "zz" emptyDB = .error "Connection not found" ∧
    get_valid_access_token 1000 ("tokNew", 3600) "c2" dbTwoConn =
      .ok ("tokNew", { dbTwoConn with connections := dbTwoConn.connections.map (fun r =>
          if r.id == "c2" then { r with access_token := "tokNew", token_expiry := 1000 + 3600 }
          else r) }) ∧
    get_valid_access_token 1000 ("tokNew", 3600) "c1" dbTwoConn =
      .ok (connFresh.access_token, dbTwoConn) := by
  refine ⟨?_, ?_, ?_⟩
  · exact (token_refresh_boundary 1000 3600 "tokNew" "zz" "c2" emptyDB dbTwoConn connBoundary
      (by decide) (by decide)).1
  · exact (token_refresh_boundary 1000 3600 "tokNew" "zz" "c2" emptyDB dbTwoConn connBoundary
      (by decide) (by decide)).2.1 (by decide)
  · exact (token_refresh_boundary 1000 3600 "tokNew" "zz" "c1" emptyDB dbTwoConn connFresh
      (by decide) (by decide)).2.2 (by decide)

/-- C9: the spec-modelled `extractDomain` lower-cases and trims the text
after the last at-sign of the address (the angle-bracketed portion when one
is present, the whole header otherwise) and returns the empty string when
no at-sign exists, on the spec's four examples and two further probes of
the last-at and trimming rules. -/
theorem extractDomain_spec_examples :
    extractDomain "Jane Doe <jane@Example.COM>" = "example.com" ∧
    extractDomain "jane@example.com" = "example.com" ∧
    extractDomain "not-an-email" = "" ∧
    extractDomain "" = "" ∧
    extractDomain " jane@EXAMPLE.COM " = "example.com" ∧
    extractDomain "a@b@Example.ORG" = "example.org" := by
  decide

/-- C1: stored message IDs stay unique across a whole sync, and processing
an email whose message ID is already stored leaves the database unchanged,
returns normally, and increments the duplicate (skipped) counter — the
error counter and every other counter are untouched. -/
theorem message_id_unique_and_duplicates_skipped (threshold : ℚ) (cid now : String)
    (classify : EmailInfo → Classification) (emails : List EmailInfo)
    (e : EmailInfo) (db : MainDB) (k : SyncCounters)
    (hdup : e.id ∈ storedMessageIds db)
    (hnodup : (storedMessageIds db).Nodup) :
    processOneEmail threshold cid now classify e (db, k) =
      (db, { k with skipped := k.skipped + 1 }) ∧
    (storedMessageIds (sync_emails threshold cid now classify emails db).1).Nodup := by
  constructor
  · have hany : db.processed_emails.any (fun r => r.gmail_message_id == e.id) = true :=
      (mem_storedMessageIds_iff db e.id).mp hdup
    simp [processOneEmail, hany]
  · exact nodup_sync_fold threshold cid now classify emails (db, ⟨0, 0, 0, 0⟩) hnodup

/-- A database holding exactly the email `m1`, used to exercise the
duplicate path. -/
theorem message_id_unique_witness :
    processOneEmail default_confidence_threshold "c1" "2025-01-01T00:00:00"
        (fun _ => highConfClassification) email0
        ({ emptyDB with processed_emails :=
            [mkProcessedRow "c1" "2024-12-31T00:00:00" email0 lowConfClassification] },
         counters0) =
      ({ emptyDB with processed_emails :=
          [mkProcessedRow "c1" "2024-12-31T00:00:00" email0 lowConfClassification] },
       { counters0 with skipped := counters0.skipped + 1 }) ∧
    (storedMessageIds (sync_emails default_confidence_threshold "c1" "2025-01-01T00:00:00"
        (fun _ => highConfClassification) [email0, email0]
        { emptyDB with processed_emails :=
            [mkProcessedRow "c1" "2024-12-31T00:00:00" email0 lowConfClassification] }).1).Nodup :=
  message_id_unique_and_duplicates_skipped default_confidence_threshold "c1"
    "2025-01-01T00:00:00" (fun _ => highConfClassification) [email0, email0] email0
    { emptyDB with processed_emails :=
        [mkProcessedRow "c1" "2024-12-31T00:00:00" email0 lowConfClassification] }
    counters0 (by simp [storedMessageIds, mkProcessedRow]) (by simp [storedMessageIds])

/-- C2 counterexample: a classification above the default threshold whose
vendor_name key is present with JSON null passes the confidence gate, yet
no subscriptions row is created: the NOT NULL vendor_name insert fails, the
error is swallowed and counted, and only the processed_emails row remains —
refuting the claimed "if and only if". -/
theorem confidence_gate_not_sufficient_counterexample :
    (nullVendorClassification.is_subscription = true ∧
      default_confidence_threshold ≤ nullVendorClassification.confidence) ∧
    (processOneEmail default_confidence_threshold "c1" "2025-01-01T00:00:00"
        (fun _ => nullVendorClassification) email0 (emptyDB, counters0)).1.subscriptions =
      [] ∧
    (processOneEmail default_confidence_threshold "c1" "2025-01-01T00:00:00"
        (fun _ => nullVendorClassification) email0 (emptyDB, counters0)).2.errors = 1 ∧
    (processOneEmail default_confidence_threshold "c1" "2025-01-01T00:00:00"
        (fun _ => nullVendorClassification) email0 (emptyDB, counters0)).1.processed_emails =
      [mkProcessedRow "c1" "2025-01-01T00:00:00" email0 nullVendorClassification] := by
  decide

/-- C2 amended: processing a not-yet-stored email always appends one
processed_emails row carrying the classification metadata (is-subscription
flag, confidence score, vendor); a subscriptions row is appended exactly
when the classification passes the confidence gate AND its vendor_name is
not JSON null (an absent vendor_name is stored as "Unknown"); a passing
gate with a JSON-null vendor_name leaves the subscriptions table unchanged
and increments the error counter instead; below the gate nothing but the
processed_emails row is written. -/
theorem subscription_confidence_and_vendor_gating (threshold : ℚ) (cid now : String)
    (classify : EmailInfo → Classification) (e : EmailInfo)
    (db : MainDB) (k : SyncCounters)
    (hfresh : e.id ∉ storedMessageIds db) :
    (processOneEmail threshold cid now classify e (db, k)).1.processed_emails =
      db.processed_emails ++ [mkProcessedRow cid now e (classify e)] ∧
    ((processOneEmail threshold cid now classify e (db, k)).1.subscriptions ≠
        db.subscriptions ↔
      (((classify e).is_subscription = true ∧ threshold ≤ (classify e).confidence) ∧
        (classify e).vendor_name.getD "Unknown" ≠ none)) ∧
    (∀ v, ((classify e).is_subscription = true ∧ threshold ≤ (classify e).confidence) →
      (classify e).vendor_name.getD "Unknown" = some v →
      (processOneEmail threshold cid now classify e (db, k)).1.subscriptions =
        db.subscriptions ++ [mkSubscriptionRow cid v (classify e)] ∧
      (processOneEmail threshold cid now classify e (db, k)).2.errors = k.errors) ∧
    (((classify e).is_subscription = true ∧ threshold ≤ (classify e).confidence) →
      (classify e).vendor_name.getD "Unknown" = none →
      (processOneEmail threshold cid now classify e (db, k)).1.subscriptions =
        db.subscriptions ∧
      (processOneEmail threshold cid now classify e (db, k)).2.errors = k.errors + 1) ∧
    (¬ ((classify e).is_subscription = true ∧ threshold ≤ (classify e).confidence) →
      (processOneEmail threshold cid now classify e (db, k)).1.subscriptions =
        db.subscriptions) := by
  have hany : ¬ db.processed_emails.any (fun r => r.gmail_message_id == e.id) = true := by
    rw [← mem_storedMessageIds_iff]
    exact hfresh
  by_cases hgate : (classify e).is_subscription = true ∧ threshold ≤ (classify e).confidence
  · rcases hv : (classify e).vendor_name.getD "Unknown" with _ | v
    · refine ⟨?_, ?_, ?_, ?_, ?_⟩
      · simp [processOneEmail, hany, hgate, hv]
      · simp [processOneEmail, hany, hgate, hv]
      · intro v' _ hv'
        simp at hv'
      · intro _ _
        constructor
        · simp [processOneEmail, hany, hgate, hv]
        · simp [processOneEmail, hany, hgate, hv]
      · intro hno
        exact absurd hgate hno
    · refine ⟨?_, ?_, ?_, ?_, ?_⟩
      · simp [processOneEmail, hany, hgate, hv]
      · simp only [processOneEmail, hany, Bool.false_eq_true, if_false, hgate, if_true, hv,
          and_self, iff_true, ne_eq, reduceCtorEq, not_false_eq_true, and_true]
        intro hcontra
        have := congrArg List.length hcontra
        simp at this
      · intro v' _ hv'
        injection hv' with hvv
        subst hvv
        constructor
        · simp [processOneEmail, hany, hgate, hv]
        · simp [processOneEmail, hany, hgate, hv]
      · intro _ hnone
        simp at hnone
      · intro hno
        exact absurd hgate hno
  · refine ⟨?_, ?_, ?_, ?_, ?_⟩
    · simp [processOneEmail, hany, hgate]
    · simp [processOneEmail, hany, hgate]
    · intro v hyes
      exact absurd hyes hgate
    · intro hyes
      exact absurd hyes hgate
    · intro _
      simp [processOneEmail, hany, hgate]

/-- C2 witness: over an empty database with the default threshold 0.7, the
0.75-confidence classification with vendor Netflix produces the
subscription row, the 0.65-confidence one produces none, the
null-vendor 0.75 one produces none and one counted error, and the
processed_emails row is stored in every case. -/
theorem subscription_confidence_and_vendor_gating_witness :
    (processOneEmail default_confidence_threshold "c1" "2025-01-01T00:00:00"
        (fun _ => highConfClassification) email0 (emptyDB, counters0)).1.subscriptions =
      emptyDB.subscriptions ++ [mkSubscriptionRow "c1" "Netflix" highConfClassification] ∧
    (processOneEmail default_confidence_threshold "c1" "2025-01-01T00:00:00"
        (fun _ => lowConfClassification) email0 (emptyDB, counters0)).1.subscriptions =
      emptyDB.subscriptions ∧
    (processOneEmail default_confidence_threshold "c1" "2025-01-01T00:00:00"
        (fun _ => nullVendorClassification) email0 (emptyDB, counters0)).1.subscriptions =
      emptyDB.subscriptions ∧
    (processOneEmail default_confidence_threshold "c1" "2025-01-01T00:00:00"
        (fun _ => nullVendorClassification) email0 (emptyDB, counters0)).2.errors =
      counters0.errors + 1 ∧
    (processOneEmail default_confidence_threshold "c1" "2025-01-01T00:00:00"
        (fun _ => lowConfClassification) email0 (emptyDB, counters0)).1.processed_emails =
      emptyDB.processed_emails ++
        [mkProcessedRow "c1" "2025-01-01T00:00:00" email0 lowConfClassification] := by
  refine ⟨?_, ?_, ?_, ?_, ?_⟩
  · exact ((subscription_confidence_and_vendor_gating default_confidence_threshold "c1"
      "2025-01-01T00:00:00" (fun _ => highConfClassification) email0 emptyDB counters0
      (by decide)).2.2.1 "Netflix" ⟨rfl, by decide⟩ rfl).1
  · exact (subscription_confidence_and_vendor_gating default_confidence_threshold "c1"
      "2025-01-01T00:00:00" (fun _ => lowConfClassification) email0 emptyDB counters0
      (by decide)).2.2.2.2 (by intro hc; exact absurd hc.2 (by decide))
  · exact ((subscription_confidence_and_vendor_gating default_confidence_threshold "c1"
      "2025-01-01T00:00:00" (fun _ => nullVendorClassification) email0 emptyDB counters0
      (by decide)).2.2.2.1 ⟨rfl, by decide⟩ rfl).1
  · exact ((subscription_confidence_and_vendor_gating default_confidence_threshold "c1"
      "2025-01-01T00:00:00" (fun _ => nullVendorClassification) email0 emptyDB counters0
      (by decide)).2.2.2.1 ⟨rfl, by decide⟩ rfl).2
  · exact (subscription_confidence_and_vendor_gating default_confidence_threshold "c1"
      "2025-01-01T00:00:00" (fun _ => lowConfClassification) email0 emptyDB counters0
      (by decide)).1

/-- C6: at a concrete run, the stored `received_at` of a newly processed
email is the ingestion-time clock passed to the sync, not the message's own
Date header, which names a different instant and is ignored. -/
theorem received_at_is_ingestion_clock :
    ((processOneEmail default_confidence_threshold "c1" "2025-06-01T09:00:00"
        (fun _ => lowConfClassification) email0 (emptyDB, counters0)).1.processed_emails.map
        (fun r => r.received_at)) = ["2025-06-01T09:00:00"] ∧
    email0.date = "Mon, 01 Jan 2024 00:00:00 +0000" ∧
    ("2025-06-01T09:00:00" : String) ≠ "Mon, 01 Jan 2024 00:00:00 +0000" := by
  refine ⟨?_, by decide, by decide⟩
  decide

/-- C3 counterexample: an HTTP 200 reply whose content parses to a JSON
object with no fields at all is returned as-is by
`classify_email_with_llm`, not replaced by the conservative default the
claim requires for a parsed reply missing required fields; and a reply
whose body is not JSON at all makes the function raise (the
JSONDecodeError handler reads the never-bound `result`) instead of
returning the default. -/
theorem classifier_error_handling_counterexample :
    classify_email_with_llm "Subject: hi"
        (.response 200 (.parsed ⟨[some emptyClassificationJson]⟩)) =
      .ok emptyClassificationJson ∧
    emptyClassificationJson ≠ conservativeDefault ∧
    classify_email_with_llm "Subject: hi" (.response 502 .invalid) =
      .error resultUnboundError := by
  exact ⟨rfl, by decide, rfl⟩

/-- C3 amended: `classify_email_with_llm` returns the conservative default
on a raised transport exception, on any non-200 status whose body is JSON,
on a missing or empty choices list, and on message content that fails JSON
parsing; but a successfully parsed content object is returned as-is
without validation of its fields, and a response body that is not JSON
makes the JSONDecodeError handler itself read the unbound `result` and
raise UnboundLocalError out of the function, whatever the status was. -/
theorem classifier_fallback_behaviour (content : String) (status bodyStatus : Nat)
    (result : OpenAIResult) (c : ClassificationJson)
    (rest : List (Option ClassificationJson))
    (hstatus : status ≠ 200) :
    classify_email_with_llm content .exn = .ok conservativeDefault ∧
    classify_email_with_llm content (.response status (.parsed result)) =
      .ok conservativeDefault ∧
    classify_email_with_llm content (.response 200 (.parsed ⟨[]⟩)) =
      .ok conservativeDefault ∧
    classify_email_with_llm content (.response 200 (.parsed ⟨none :: rest⟩)) =
      .ok conservativeDefault ∧
    classify_email_with_llm content (.response 200 (.parsed ⟨some c :: rest⟩)) = .ok c ∧
    classify_email_with_llm content (.response bodyStatus .invalid) =
      .error resultUnboundError := by
  refine ⟨rfl, ?_, rfl, rfl, rfl, rfl⟩
  simp [classify_email_with_llm, hstatus]

/-- C3 witness: a concrete HTTP 500 reply with a JSON body falls back to
the default, a concrete 200 reply whose parsed content object is empty is
passed through unchanged, and a concrete 502 non-JSON body raises. -/
theorem classifier_fallback_behaviour_witness :
    classify_email_with_llm "Subject: hi" (.response 500 (.parsed ⟨[]⟩)) =
      .ok conservativeDefault ∧
    classify_email_with_llm "Subject: hi"
        (.response 200 (.parsed ⟨[some emptyClassificationJson]⟩)) =
      .ok emptyClassificationJson ∧
    classify_email_with_llm "Subject: hi" (.response 502 .invalid) =
      .error resultUnboundError := by
  refine ⟨?_, ?_, ?_⟩
  · exact (classifier_fallback_behaviour "Subject: hi" 500 502 ⟨[]⟩
      emptyClassificationJson [] (by decide)).2.1
  · exact (classifier_fallback_behaviour "Subject: hi" 500 502 ⟨[]⟩
      emptyClassificationJson [] (by decide)).2.2.2.2.1
  · exact (classifier_fallback_behaviour "Subject: hi" 500 502 ⟨[]⟩
      emptyClassificationJson [] (by decide)).2.2.2.2.2

/-- C5 counterexample: against a two-page listing, one `recent` call
returns only the first page's message IDs, not the IDs of every page of the
listing. -/
theorem pagination_single_page_counterexample :
    chasePages twoPageApi 2 none = ["m1", "m2"] ∧
    listingResultIds
        (fetch_message_list twoPageApi 0 ("tokNew", 3600) "c1" .recent dbOneConn) = ["m1"] ∧
    listingResultIds
        (fetch_message_list twoPageApi 0 ("tokNew", 3600) "c1" .recent dbOneConn) ≠
      chasePages twoPageApi 2 none := by
  refine ⟨by decide, by decide, by decide⟩

/-- C5 amended: a listing call issues exactly one page request — from no
cursor in `recent` mode (after clearing the saved cursor), from the saved
cursor in `older` mode — appends that single page's message IDs, and
persists the returned continuation cursor (when present) on the connection
for future `older` calls; it does not loop over the remaining pages. -/
theorem fetch_single_page_and_cursor (api : ListApi) (now life : Int) (tok cid : String)
    (db : MainDB) (c : ConnectionRow)
    (hfind : db.connections.find? (fun r => r.id == cid) = some c)
    (hfresh : now + refreshMarginSeconds < c.token_expiry) :
    fetch_message_list api now (tok, life) cid .recent db =
      .ok ((api none).messages,
        saveNextPageToken (api none).nextPageToken cid (clearPageToken cid db)) ∧
    fetch_message_list api now (tok, life) cid .older db =
      .ok ((api c.fetch_page_token).messages,
        saveNextPageToken (api c.fetch_page_token).nextPageToken cid db) := by
  constructor
  · simp [fetch_message_list, get_valid_access_token, hfind, not_le.mpr hfresh]
  · simp [fetch_message_list, get_valid_access_token, hfind, not_le.mpr hfresh]

/-- C5 witness: one concrete `older` call against the two-page listing with
no saved cursor returns page one only and persists its cursor. -/
theorem fetch_single_page_and_cursor_witness :
    fetch_message_list twoPageApi 0 ("tokNew", 3600) "c1" .older dbOneConn =
      .ok ((twoPageApi connFresh.fetch_page_token).messages,
        saveNextPageToken (twoPageApi connFresh.fetch_page_token).nextPageToken "c1"
          dbOneConn) :=
  (fetch_single_page_and_cursor twoPageApi 0 3600 "tokNew" "c1" dbOneConn connFresh
    (by decide) (by decide)).2

/-- C7: a first response of HTTP 429 causes exactly one retry request after
one fixed sleep, whatever the retry outcome; a failed retry (any non-200
status, timeout, or exception) drops the item with no further request; a
200 retry succeeds; any other first status issues no retry; and an item
whose fetch failed is simply omitted while the rest of the batch is still
processed — no item failure escapes `threaded_fetch_messages`. -/
theorem rate_limit_single_retry (id : String) (p p2 : MsgPayload) (r2 : MsgResp)
    (status2 status : Nat) (m : String) (msgs : List String)
    (oracle : String → MsgResp × MsgResp)
    (h2 : status2 ≠ 200) (hnot429 : status ≠ 429)
    (hfail : (fetch_single_message m (oracle m).1 (oracle m).2).result = none) :
    (fetch_single_message id (.http 429 p) r2).requests = 2 ∧
    (fetch_single_message id (.http 429 p) r2).sleeps = 1 ∧
    (fetch_single_message id (.http 429 p) (.http status2 p2)).result = none ∧
    (fetch_single_message id (.http 429 p) .timeout).result = none ∧
    (fetch_single_message id (.http 429 p) .exn).result = none ∧
    (fetch_single_message id (.http 429 p) (.http 200 p2)).result =
      some (mkEmailInfo id p2) ∧
    (fetch_single_message id (.http status p) r2).requests = 1 ∧
    threaded_fetch_messages (m :: msgs) oracle = threaded_fetch_messages msgs oracle := by
  refine ⟨?_, ?_, ?_, rfl, rfl, rfl, ?_, ?_⟩
  · cases r2 <;> simp [fetch_single_message] <;> split <;> rfl
  · cases r2 <;> simp [fetch_single_message] <;> split <;> rfl
  · simp [fetch_single_message, h2]
  · by_cases h200 : status = 200 <;> simp [fetch_single_message, hnot429, h200]
  · simp [threaded_fetch_messages, hfail]

/-- C7 witness: a message whose first and retried responses are both HTTP
429 issues exactly two requests and one sleep, is dropped, and leaves the
rest of the batch intact. -/
theorem rate_limit_single_retry_witness :
    (fetch_single_message "m1" (.http 429 payload0) (.http 429 payload0)).requests = 2 ∧
    (fetch_single_message "m1" (.http 429 payload0) (.http 429 payload0)).sleeps = 1 ∧
    (fetch_single_message "m1" (.http 429 payload0) (.http 429 payload0)).result = none ∧
    (fetch_single_message "m1" (.http 429 payload0) .timeout).result = none ∧
    (fetch_single_message "m1" (.http 429 payload0) .exn).result = none ∧
    (fetch_single_message "m1" (.http 429 payload0) (.http 200 payload0)).result =
      some (mkEmailInfo "m1" payload0) ∧
    (fetch_single_message "m1" (.http 500 payload0) (.http 429 payload0)).requests = 1 ∧
    threaded_fetch_messages ["m1", "m2"] oracle429 =
      threaded_fetch_messages ["m2"] oracle429 :=
  rate_limit_single_retry "m1" payload0 payload0 (.http 429 payload0) 429 500 "m1" ["m2"]
    oracle429 (by decide) (by decide) (by decide)

/-- C8: renaming a stored subscription to a name already carried by a
different stored subscription is rejected with the name-exists error and
leaves the stored subscriptions unchanged, so uniqueness of the name key is
preserved. -/
theorem rename_collision_rejected (subs : List Subscription) (name n : String)
    (a : UpdateArgs) (s t : Subscription)
    (hs : s ∈ subs) (hsname : s.name = name)
    (ht : t ∈ subs) (htname : t.name = n)
    (hnew : a.new_name = some n) (hne : n ≠ name) :
    update_subscription subs name a = (.nameExists, subs) ∧
    (((update_subscription subs name a).2.map (fun x => x.name)).Nodup ↔
      (subs.map (fun x => x.name)).Nodup) := by
  have hexists : subs.any (fun x => x.name == name) = true :=
    List.any_eq_true.mpr ⟨s, hs, beq_iff_eq.mpr hsname⟩
  have hcollide : subs.any (fun x => x.name == n && x.name != name) = true := by
    refine List.any_eq_true.mpr ⟨t, ht, ?_⟩
    rw [htname]
    simp [hne]
  constructor
  · simp [update_subscription, hexists, hnew, hcollide]
  · simp [update_subscription, hexists, hnew, hcollide]

/-- C8 witness: renaming Netflix to Spotify while a Spotify subscription
exists is rejected and the two stored rows are untouched. -/
theorem rename_collision_rejected_witness :
    update_subscription [subNetflix, subSpotify] "Netflix" renameToSpotify =
      (.nameExists, [subNetflix, subSpotify]) ∧
    (((update_subscription [subNetflix, subSpotify] "Netflix" renameToSpotify).2.map
        (fun x => x.name)).Nodup ↔
      (([subNetflix, subSpotify] : List Subscription).map (fun x => x.name)).Nodup) :=
  rename_collision_rejected [subNetflix, subSpotify] "Netflix" "Spotify" renameToSpotify
    subNetflix subSpotify (by decide) (by decide) (by decide) (by decide) (by decide)
    (by decide)
